import Mathlib

/-!
Verification of the chaiNNer video/device frame-streaming core.

This file gives a shallow embedding of the Python sources

  * backend/src/nodes/impl/video.py
      (VideoMetadata.from_file, VideoCapture.detect_device_capabilities,
       VideoCapture.__init__, VideoCapture.stream_frames)
  * backend/src/packages/chaiNNer_standard/image/video_frames/
      get_stream_from_capture_device.py
      (VideoCaptureState, VIDEO_LOADER_STATES, the node body, iterator,
       cleanup_state)

and proves the spec's testable properties about it.  Python exceptions are
modelled with an explicit exception type and `Except`; the external ffmpeg
process is modelled by scripts of read events and a teardown-behaviour tag;
machine integers are Nat/Int; Python floats are idealised as rationals.
-/

/-- Python exception kinds that the embedded code can raise.  The metadata
probe raises `runtimeError` with a descriptive message for missing fields
(the spec calls these `MetadataError`); an unguarded `n / d` with `d = 0`
raises `zeroDivisionError`; list indexing out of range raises `indexError`;
`int()` on a non-numeric string raises `valueError`; a failed process start
raises `ffmpegError`. -/
inductive PyExc where
  | runtimeError (msg : String)
  | zeroDivisionError
  | indexError
  | valueError
  | ffmpegError
deriving DecidableEq, Repr

/-- `True`-ness of an `Except` being an error. -/
def exceptIsError {ε α : Type} : Except ε α → Bool
  | Except.error _ => true
  | Except.ok _ => false

/-- Numeric value of a decimal digit character, `none` for a non-digit. -/
def digitVal (c : Char) : Option Nat :=
  if '0' ≤ c ∧ c ≤ '9' then some (c.toNat - '0'.toNat) else none

/-- Accumulating decimal parser over characters (all characters must be
digits, as for Python `int("...")` on a canonical numeral). -/
def parseNatAux : List Char → Nat → Option Nat
  | [], acc => some acc
  | c :: rest, acc =>
    match digitVal c with
    | some d => parseNatAux rest (acc * 10 + d)
    | none => none

/-- Python `int(s)` on a canonical integer numeral (optional leading minus
sign followed by decimal digits); `none` models a `ValueError`. -/
def parseIntChars : List Char → Option Int
  | [] => none
  | '-' :: rest =>
    if rest = [] then none
    else (parseNatAux rest 0).map (fun m => -(m : Int))
  | l => (parseNatAux l 0).map (fun m => (m : Int))

/-- Python `s.split(sep)` for a one-character separator, over the character
list of the string.  `"".split(sep)` is `[""]`, and separators at the ends
produce empty parts, exactly as in Python. -/
def pySplitChar (sep : Char) : List Char → List (List Char)
  | [] => [[]]
  | c :: rest =>
    let r := pySplitChar sep rest
    if c = sep then [] :: r
    else
      match r with
      | [] => [[c]]
      | p :: ps => (c :: p) :: ps

/-- Python list indexing `l[i]`, raising `IndexError` out of range. -/
def pyListGet (l : List (List Char)) (i : Nat) : Except PyExc (List Char) :=
  match l.get? i with
  | some v => Except.ok v
  | none => Except.error PyExc.indexError

/-- Python `int(s)` as a fallible operation. -/
def pyIntOf (cs : List Char) : Except PyExc Int :=
  match parseIntChars cs with
  | some n => Except.ok n
  | none => Except.error PyExc.valueError

/-- Embedding of `int(fps.split("/")[0]) / int(fps.split("/")[1])` from
`VideoMetadata.from_file` (video.py line 50): split on `/`, parse both
parts with `int()` left to right, then divide; a zero denominator raises
`ZeroDivisionError`.  The float division is idealised as exact division
of rationals. -/
def parse_r_frame_rate (fps : List Char) : Except PyExc ℚ :=
  let parts := pySplitChar '/' fps
  match pyListGet parts 0 with
  | Except.error e => Except.error e
  | Except.ok ns =>
    match pyIntOf ns with
    | Except.error e => Except.error e
    | Except.ok n =>
      match pyListGet parts 1 with
      | Except.error e => Except.error e
      | Except.ok ds =>
        match pyIntOf ds with
        | Except.error e => Except.error e
        | Except.ok d =>
          if d = 0 then Except.error PyExc.zeroDivisionError
          else Except.ok ((n : ℚ) / (d : ℚ))

/-- `VideoMetadata` from video.py (width, height, fps, frame_count).
Python floats are idealised as rationals. -/
structure VideoMetadata where
  width : Int
  height : Int
  fps : ℚ
  frame_count : Int
deriving DecidableEq, Repr

/-- The fields of an ffprobe result that `VideoMetadata.from_file` reads:
presence of the format block, presence of a video stream, and the
width/height/r_frame_rate/nb_frames/duration fields of that stream (plus
the format-level duration fallback).  Absent dictionary keys are `none`. -/
structure FileProbe where
  hasFormat : Bool
  hasVideoStream : Bool
  width : Option Int
  height : Option Int
  r_frame_rate : Option (List Char)
  nb_frames : Option Int
  stream_duration : Option ℚ
  format_duration : Option ℚ
deriving DecidableEq, Repr

/-- Python `int(x)` on a float value (idealised as a rational): truncation
toward zero. -/
def pyTrunc (q : ℚ) : Int :=
  if 0 ≤ q.num then Int.ofNat (q.num.toNat / q.den)
  else - Int.ofNat ((- q.num).toNat / q.den)

/-- Embedding of `VideoMetadata.from_file` (video.py lines 24-70): fail on a
missing format block, missing video stream, or missing width/height/fps;
take `frame_count` from the explicit `nb_frames` field when present, else
from `duration * fps` (stream duration first, then format duration), else
fail. -/
def VideoMetadata.from_file (p : FileProbe) : Except PyExc VideoMetadata :=
  if ¬ p.hasFormat then
    Except.error (PyExc.runtimeError ("Failed to get video format. Please report."))
  else if ¬ p.hasVideoStream then
    Except.error (PyExc.runtimeError ("No video stream found in file"))
  else
    match p.width with
    | none => Except.error (PyExc.runtimeError ("No width found in video stream"))
    | some w =>
      match p.height with
      | none => Except.error (PyExc.runtimeError ("No height found in video stream"))
      | some h =>
        match p.r_frame_rate with
        | none => Except.error (PyExc.runtimeError ("No fps found in video stream"))
        | some fpsStr =>
          match parse_r_frame_rate fpsStr with
          | Except.error e => Except.error e
          | Except.ok fps =>
            match p.nb_frames with
            | some n => Except.ok ⟨w, h, fps, n⟩
            | none =>
              match p.stream_duration with
              | some dur => Except.ok ⟨w, h, fps, pyTrunc (dur * fps)⟩
              | none =>
                match p.format_duration with
                | some dur => Except.ok ⟨w, h, fps, pyTrunc (dur * fps)⟩
                | none =>
                  Except.error (PyExc.runtimeError ("No frame count or duration found in video stream. Unable to determine video length. Please report."))

/-- One stream record of an ffprobe result, as read by
`VideoCapture.detect_device_capabilities`. -/
structure ProbeStream where
  codec_type : String
  pix_fmt : Option String
  width : Option Int
  height : Option Int
deriving DecidableEq, Repr

/-- The `format_map` dictionary lookup with default `"yuyv422"` from
`detect_device_capabilities` (video.py lines 200-207). -/
def format_map_get (k : String) : String :=
  if k = "yuyv422" then "yuyv422"
  else if k = "mjpeg" then "mjpeg"
  else if k = "gray" then "gray"
  else if k = "bgr24" then "bgr24"
  else "yuyv422"

/-- Embedding of `VideoCapture.detect_device_capabilities` (video.py lines
173-219).  The probe of the device either raises (any exception is caught
by the surrounding `try`) or returns a list of streams; the whole function
is total and returns the fallback pair `("yuyv422", "160x120")` when the
probe failed or produced no video stream. -/
def detect_device_capabilities (probe : Except PyExc (List ProbeStream)) : String × String :=
  match probe with
  | Except.error _ => ("yuyv422", "160x120")
  | Except.ok streams =>
    match streams.find? (fun s => s.codec_type == "video") with
    | none => ("yuyv422", "160x120")
    | some vs =>
      let fmt := format_map_get (vs.pix_fmt.getD "yuyv422")
      let w := vs.width.getD 160
      let h := vs.height.getD 120
      (fmt, toString w ++ "x" ++ toString h)

deriving instance DecidableEq for Except

/-- The parse outcome is the structured metadata error (a `RuntimeError`
with a message). -/
def isMetadataRuntimeError : Except PyExc ℚ → Bool
  | Except.error (PyExc.runtimeError _) => true
  | _ => false

/-- A file probe carrying both an explicit frame count (42) and a
duration (10 s at 30 fps would derive 300). -/
def probeWithBoth : FileProbe :=
  ⟨true, true, some 640, some 480, some ['3', '0', '/', '1'], some 42, some 10, none⟩

/-- The format configuration computed in `VideoCapture.__init__` (video.py
lines 221-248): the user-selected `requested_fmt`, the v4l2 `input_format`
and the ffmpeg `output_pix_fmt`. -/
structure CaptureFormat where
  requested_fmt : String
  input_format : String
  output_pix_fmt : String
deriving DecidableEq, Repr

/-- Embedding of the if/elif chain of `VideoCapture.__init__`: mjpeg is
decoded to BGR in-pipeline, yuyv422 requests BGR output from ffmpeg,
gray stays gray, and anything else is assumed raw BGR24. -/
def captureFormatFor (pix_fmt : String) : CaptureFormat :=
  if pix_fmt = "mjpeg" then ⟨pix_fmt, "mjpeg", "bgr24"⟩
  else if pix_fmt = "yuyv422" then ⟨pix_fmt, "yuyv422", "bgr24"⟩
  else if pix_fmt = "gray" ∨ pix_fmt = "gray8" then ⟨pix_fmt, "gray", "gray"⟩
  else ⟨pix_fmt, "bgr24", "bgr24"⟩

/-- The `_bpp_map` dictionary of `VideoCapture.stream_frames` (video.py
lines 275-280). -/
def bppMap (fmt : String) : Option Nat :=
  if fmt = "bgr24" then some 3
  else if fmt = "rgb24" then some 3
  else if fmt = "gray" then some 1
  else if fmt = "gray8" then some 1
  else none

/-- Bytes per pixel as computed in `stream_frames` (video.py lines 281-285):
2 for a requested yuyv422 format, otherwise `_bpp_map.get(output_pix_fmt, 3)`. -/
def bytesPerPixel (fmt : CaptureFormat) : Nat :=
  if fmt.requested_fmt = "yuyv422" then 2
  else (bppMap fmt.output_pix_fmt).getD 3

/-- The fixed table of common resolutions used for first-frame
auto-detection (video.py lines 320-326). -/
def commonResolutions : List (Nat × Nat) :=
  [(160, 120), (320, 240), (640, 480), (1280, 720), (1920, 1080)]

/-- The `for w, h in common: if w * h == pixels: ... break` search
(video.py lines 327-332): first table entry whose pixel count matches. -/
def findResolution (pixels : Nat) : Option (Nat × Nat) :=
  commonResolutions.find? (fun wh => wh.1 * wh.2 == pixels)

/-- A raw buffer returned by one `process.stdout.read(frame_size)` call,
identified by its byte length and an opaque content tag. -/
structure Buffer where
  len : Nat
  src : Nat
deriving DecidableEq, Repr

/-- A frame as yielded by `stream_frames`, recording which pixel
normalisation was applied to the read buffer: gray expanded to three
channels, YUYV422 converted to BGR via OpenCV, or reshaped as-is into a
3-channel image. -/
inductive FrameOut where
  | gray3 (buf : Buffer)
  | yuyvBgr (buf : Buffer)
  | raw3 (buf : Buffer)
deriving DecidableEq, Repr

/-- The buffer a yielded frame was produced from. -/
def FrameOut.buffer : FrameOut → Buffer
  | FrameOut.gray3 b => b
  | FrameOut.yuyvBgr b => b
  | FrameOut.raw3 b => b

/-- Mutable loop state of `stream_frames`: the current `width`, `height`,
`frame_size` and `first_frame` locals. -/
structure DemuxState where
  width : Nat
  height : Nat
  frameSize : Nat
  firstFrame : Bool
deriving DecidableEq, Repr

/-- Loop state at entry of the capture loop (video.py lines 271-288):
dimensions from the parsed resolution, `frame_size = width * height *
bytes_per_pixel`, `first_frame = True`. -/
def demuxInit (fmt : CaptureFormat) (width height : Nat) : DemuxState :=
  ⟨width, height, width * height * bytesPerPixel fmt, true⟩

/-- One interaction with the external process at the top of the capture
loop: the result of `process.poll()` (did the process exit?) and, if not,
the buffer returned by the blocking `read(frame_size)`. -/
structure ReadEvent where
  pollExited : Bool
  buf : Buffer
deriving DecidableEq, Repr

/-- Outcome of one iteration of the capture loop: the loop `break`s
(process exited), yields a frame with an updated state, silently skips the
buffer, or raises an uncaught reshape error. -/
inductive StepResult where
  | ended
  | yielded (f : FrameOut) (s : DemuxState)
  | skipped (s : DemuxState)
  | raised (s : DemuxState)
deriving DecidableEq, Repr

/-- The buffer-and-state of a `yielded` step, `none` otherwise. -/
def StepResult.yieldsBuf : StepResult → Option (Buffer × DemuxState)
  | StepResult.yielded f s => some (f.buffer, s)
  | _ => none

/-- The first-frame auto-resolution-detection block of the capture loop
(video.py lines 317-333): a first-frame read whose length `n` is nonzero
and differs from `frame_size` searches the resolution table for
`n / bytes_per_pixel`; on a match the width, height and frame size are
adopted (`frame_size = len(in_bytes)`) and `first_frame` is cleared; on
no match only `first_frame` is cleared; otherwise the state is
untouched. -/
def autodetectState (fmt : CaptureFormat) (s : DemuxState) (n : Nat) : DemuxState :=
  if s.firstFrame = true ∧ n ≠ 0 ∧ n ≠ s.frameSize then
    match findResolution (n / bytesPerPixel fmt) with
    | some wh => ⟨wh.1, wh.2, n, false⟩
    | none => ⟨s.width, s.height, s.frameSize, false⟩
  else s

/-- The emission block of the loop body (video.py lines 335-360), run on
the post-auto-detection state `s1`: a buffer of exactly the current frame
size is normalised per format and yielded with `first_frame` cleared at
the bottom of the loop; a yuyv422 conversion failure (or impossible
2-channel reshape) `continue`s, keeping `s1` as is; an impossible gray or
3-channel reshape raises; any other buffer length is dropped silently. -/
def emitStep (fmt : CaptureFormat) (cvOk : Bool) (s1 : DemuxState) (b : Buffer) : StepResult :=
  if b.len = s1.frameSize then
    if fmt.output_pix_fmt = "gray" ∨ fmt.output_pix_fmt = "gray8" then
      if b.len = s1.height * s1.width then
        StepResult.yielded (FrameOut.gray3 b) ⟨s1.width, s1.height, s1.frameSize, false⟩
      else StepResult.raised s1
    else if fmt.requested_fmt = "yuyv422" then
      if cvOk = true ∧ b.len = s1.height * s1.width * 2 then
        StepResult.yielded (FrameOut.yuyvBgr b) ⟨s1.width, s1.height, s1.frameSize, false⟩
      else StepResult.skipped s1
    else
      if b.len = s1.height * s1.width * 3 then
        StepResult.yielded (FrameOut.raw3 b) ⟨s1.width, s1.height, s1.frameSize, false⟩
      else StepResult.raised s1
  else StepResult.skipped ⟨s1.width, s1.height, s1.frameSize, false⟩

/-- One iteration of the `while True:` capture loop of
`VideoCapture.stream_frames` (video.py lines 309-360): the
`process.poll()` check breaks the loop if the process exited, otherwise
the auto-detection block runs on the read length and the emission block
on the resulting state.  `cvOk` says whether the OpenCV
import/reshape/convert succeeds. -/
def demuxStep (fmt : CaptureFormat) (cvOk : Bool) (s : DemuxState) (ev : ReadEvent) : StepResult :=
  if ev.pollExited then StepResult.ended
  else emitStep fmt cvOk (autodetectState fmt s ev.buf.len) ev.buf

/-- How the child process responds to the teardown sequence in the
`finally` block of `stream_frames` (video.py lines 367-382):

* `alreadyExited`: `process.poll()` is not `None`, nothing to do;
* `gracefulOk`: `terminate()` then `wait(timeout=1.0)` succeed;
* `hangsKillOk`: `wait` raises `TimeoutExpired` and the `kill()` in that
  handler succeeds;
* `hangsKillRaises`: `wait` raises `TimeoutExpired` and `kill()` itself
  raises (e.g. a permission error from the signal syscall);
* `terminateRaises`: `terminate()` or `wait` raises some other exception. -/
inductive ProcBehavior where
  | alreadyExited
  | gracefulOk
  | hangsKillOk
  | hangsKillRaises
  | terminateRaises
deriving DecidableEq, Repr

/-- Observable outcome of the `finally` block for one spawned process. -/
inductive TeardownOutcome where
  | notSpawned
  | noop
  | graceful
  | forcedKill
  | errorLogged
  | errorPropagated
deriving DecidableEq, Repr

/-- Embedding of the teardown `try/except` (video.py lines 371-381):
`TimeoutExpired` is handled by a logged warning plus `process.kill()` —
which itself sits outside any handler, so an exception from the kill
propagates — and any other exception from `terminate`/`wait` is caught by
the `except Exception` clause and only logged. -/
def runTeardown : ProcBehavior → TeardownOutcome
  | ProcBehavior.alreadyExited => TeardownOutcome.noop
  | ProcBehavior.gracefulOk => TeardownOutcome.graceful
  | ProcBehavior.hangsKillOk => TeardownOutcome.forcedKill
  | ProcBehavior.hangsKillRaises => TeardownOutcome.errorPropagated
  | ProcBehavior.terminateRaises => TeardownOutcome.errorLogged

/-- A whole streaming session as seen by `stream_frames`: whether the
`run_async` spawn succeeds, the scripted poll/read events, how many yields
the consumer takes before closing the generator (`none` = the consumer
drains it; `some k` = the generator is closed after `k` yields, as when
the frame limit or the abort signal stops the node-level loop; `some 0`
means the generator is never even started), and the process's behaviour
at teardown time. -/
structure SessionScript where
  spawnOk : Bool
  events : List ReadEvent
  stopAfter : Option Nat
  proc : ProcBehavior
deriving Repr

/-- The capture loop run over a script of read events.  Returns the frames
yielded to the consumer and whether the loop raised.  Closing the
generator after its `k`-th yield abandons the loop there, exactly like a
`GeneratorExit` delivered at the yield point. -/
def demuxLoop (fmt : CaptureFormat) (cvOk : Bool) :
    List ReadEvent → DemuxState → Option Nat → List FrameOut × Bool
  | [], _, _ => ([], false)
  | ev :: rest, s, stop =>
    match demuxStep fmt cvOk s ev with
    | StepResult.ended => ([], false)
    | StepResult.raised _ => ([], true)
    | StepResult.skipped s2 => demuxLoop fmt cvOk rest s2 stop
    | StepResult.yielded f s2 =>
      match stop with
      | none =>
        let r := demuxLoop fmt cvOk rest s2 none
        (f :: r.1, r.2)
      | some k =>
        if k ≤ 1 then ([f], false)
        else
          let r := demuxLoop fmt cvOk rest s2 (some (k - 1))
          (f :: r.1, r.2)

/-- Everything observable about one `stream_frames` generator run: the
yielded frames, how many processes were spawned and how many times the
teardown block body ran for a live process handle, the teardown outcome,
whether the capture loop raised, and whether the spawn itself failed
(the `ffmpeg.Error` branch re-raises as a `RuntimeError`). -/
structure StreamRunResult where
  frames : List FrameOut
  spawnCount : Nat
  teardownCount : Nat
  teardown : TeardownOutcome
  loopRaised : Bool
  startupRaised : Bool
deriving DecidableEq, Repr

/-- Embedding of a full `stream_frames` session (video.py lines 264-382):
a generator that is never started runs nothing; a failed spawn leaves
`process  = None` so the `finally` has nothing to tear down and the
`ffmpeg.Error` is re-raised; otherwise exactly one process is spawned,
the capture loop runs until stream end, consumer close, or an uncaught
loop error, and the `finally` then runs teardown exactly once. -/
def streamFramesRun (fmt : CaptureFormat) (cvOk : Bool) (width height : Nat)
    (sc : SessionScript) : StreamRunResult :=
  if sc.stopAfter = some 0 then
    ⟨[], 0, 0, TeardownOutcome.notSpawned, false, false⟩
  else if sc.spawnOk = false then
    ⟨[], 0, 0, TeardownOutcome.notSpawned, false, true⟩
  else
    let r := demuxLoop fmt cvOk sc.events (demuxInit fmt width height) sc.stopAfter
    ⟨r.1, 1, 1, runTeardown sc.proc, r.2, false⟩

/-- One entry of the global `VIDEO_LOADER_STATES` dictionary
(get_stream_from_capture_device.py): a `VideoCaptureState` with its
current settings, its running `frame_index`, and a generation counter
that increments every time `_create_loader` builds a fresh `VideoCapture`
object for this path. -/
structure SessionState where
  pix_fmt : String
  resolution : String
  frame_index : Nat
  loaderGen : Nat
deriving DecidableEq, Repr

/-- The process-wide world the capture node mutates: the keyed session
store plus counters for `VideoCapture` constructions, ffmpeg process
spawns, and teardowns of spawned processes. -/
structure World where
  store : List (String × SessionState)
  loaderConstructions : Nat
  spawnCount : Nat
  teardownCount : Nat
deriving DecidableEq, Repr

/-- The world before any capture node ran. -/
def emptyWorld : World := ⟨[], 0, 0, 0⟩

/-- Dictionary lookup in the keyed store. -/
def storeGet (s : List (String × SessionState)) (k : String) : Option SessionState :=
  (s.find? (fun p => p.1 == k)).map Prod.snd

/-- Dictionary assignment in the keyed store. -/
def storeSet (s : List (String × SessionState)) (k : String) (v : SessionState) :
    List (String × SessionState) :=
  match s with
  | [] => [(k, v)]
  | (k2, v2) :: rest => if k2 = k then (k, v) :: rest else (k2, v2) :: storeSet rest k v

/-- `VIDEO_LOADER_STATES.pop(path, None)`. -/
def storeDel (s : List (String × SessionState)) (k : String) : List (String × SessionState) :=
  s.filter (fun p => ¬ p.1 = k)

/-- The state-management prefix of `get_stream_from_capture_device_node`
(get_stream_from_capture_device.py lines 144-158): create a
`VideoCaptureState` (one `VideoCapture` construction, `frame_index = 0`)
if the path is unknown; otherwise call `update_settings`, which recreates
the loader — incrementing the generation and resetting `frame_index` —
exactly when the pixel format or resolution changed, and does nothing
otherwise.  No ffmpeg process is spawned here. -/
def openSession (w : World) (path pix_fmt resolution : String) : World :=
  match storeGet w.store path with
  | none =>
    { w with
        store := storeSet w.store path ⟨pix_fmt, resolution, 0, 1⟩,
        loaderConstructions := w.loaderConstructions + 1 }
  | some st =>
    if st.pix_fmt ≠ pix_fmt ∨ st.resolution ≠ resolution then
      { w with
          store := storeSet w.store path
            ⟨pix_fmt, resolution, 0, st.loaderGen + 1⟩,
          loaderConstructions := w.loaderConstructions + 1 }
    else w

/-- Result of running the node's `iterator` generator: the `(frame,
index)` pairs yielded, and how many times `node_context.aborted` was
consulted (once per frame pulled from the underlying stream). -/
structure IterResult where
  yields : List (Nat × Nat)
  checks : Nat
deriving DecidableEq, Repr

/-- Embedding of the `iterator` generator
(get_stream_from_capture_device.py lines 175-199) over an already-demuxed
stream of frames (frames stand in as opaque `Nat` tags).  For each frame
pulled from `stream_frames`, the abort signal is consulted once; abort
breaks before yielding; otherwise `(frame, enumerate-index)` is yielded,
`state.frame_index` is incremented, and the loop breaks once
`use_limit and state.frame_index >= limit`. -/
def iteratorRun (ab : Nat → Bool) (useLimit : Bool) (limit : Nat) :
    List Nat → Nat → Nat → IterResult
  | [], _, _ => ⟨[], 0⟩
  | f :: rest, fi, idx =>
    if ab idx = true then ⟨[], 1⟩
    else
      if useLimit = true ∧ limit ≤ fi + 1 then ⟨[(f, idx)], 1⟩
      else
        let r := iteratorRun ab useLimit limit rest (fi + 1) (idx + 1)
        ⟨(f, idx) :: r.yields, r.checks + 1⟩

/-- One full consumption of the node's generator for `path`: the
`iterator` runs over the session's `stream_frames` output (given here as
the list of demuxed frames), starting from the stored `frame_index`.
Consuming the generator spawns exactly one ffmpeg process and — however
iteration ends — its `finally` block tears that process down, so the
spawn and teardown counters each advance by one; the stored
`frame_index` advances by the number of yielded frames. -/
def consumeSession (w : World) (path : String) (stream : List Nat) (ab : Nat → Bool)
    (useLimit : Bool) (limit : Nat) : World × IterResult :=
  match storeGet w.store path with
  | none => (w, ⟨[], 0⟩)
  | some st =>
    let r := iteratorRun ab useLimit limit stream st.frame_index 0
    ({ w with
        store := storeSet w.store path { st with frame_index := st.frame_index + r.yields.length },
        spawnCount := w.spawnCount + 1,
        teardownCount := w.teardownCount + 1 }, r)

/-- The `cleanup_state` hook registered with
`node_context.add_cleanup(cleanup_state, after="chain")`
(get_stream_from_capture_device.py lines 161-168): once the chain run is
over, the session for `path` is cleaned up and popped from the keyed
store. -/
def cleanupState (w : World) (path : String) : World :=
  match storeGet w.store path with
  | none => w
  | some _ => { w with store := storeDel w.store path }

/-- One whole node invocation whose generator is fully consumed:
state management, then consumption. -/
def runNodeOnce (w : World) (path pix_fmt resolution : String) (stream : List Nat)
    (useLimit : Bool) (limit : Nat) : World :=
  (consumeSession (openSession w path pix_fmt resolution) path stream (fun _ => false)
    useLimit limit).1

/-- A session whose process ignores the graceful terminate (the 1-second
wait times out) and whose forced kill then raises. -/
def killRaisesScript : SessionScript :=
  ⟨true, [⟨false, ⟨12, 0⟩⟩], none, ProcBehavior.hangsKillRaises⟩

/-- The world after two capture-node invocations for the same device path
with the same pixel format and resolution, each invocation's generator
fully consumed. -/
def twoRunsSameConfig (path pf res : String) (s1 s2 : List Nat) (uL : Bool) (L : Nat) : World :=
  runNodeOnce (runNodeOnce emptyWorld path pf res s1 uL L) path pf res s2 uL L

/-- A successful table search returns an entry whose pixel count is the
searched one. -/
theorem findResolution_spec (px w h : Nat) (hf : findResolution px = some (w, h)) :
    w * h = px := by
  have hp := List.find?_some hf
  simpa using hp

/-- C6: device capability probing never fails — it is a total function,
and whenever the underlying ffprobe call raises or returns no video
stream, it returns the conservative fallback `("yuyv422", "160x120")`. -/
theorem c6_device_probe_fallback (probe : Except PyExc (List ProbeStream)) :
    (∀ e, probe = Except.error e →
      detect_device_capabilities probe = ("yuyv422", "160x120")) ∧
    (∀ streams, probe = Except.ok streams →
      streams.find? (fun s => s.codec_type == "video") = none →
      detect_device_capabilities probe = ("yuyv422", "160x120")) := by
  constructor
  · rintro e rfl
    rfl
  · rintro streams rfl hfind
    simp [detect_device_capabilities, hfind]

theorem c6_device_probe_fallback_witness :
    detect_device_capabilities (Except.error PyExc.ffmpegError) = ("yuyv422", "160x120") :=
  (c6_device_probe_fallback (Except.error PyExc.ffmpegError)).1 PyExc.ffmpegError rfl

/-- C7: a partial read strictly between 0 and the current frame size that
arrives after the first frame does not end the sequence and does not
raise — the buffer is dropped silently and the loop state (in particular
the frame size) is unchanged. -/
theorem c7_midstream_partial_read_dropped (fmt : CaptureFormat) (cvOk : Bool)
    (s : DemuxState) (ev : ReadEvent)
    (hfirst : s.firstFrame = false) (hpoll : ev.pollExited = false)
    (_hpos : 0 < ev.buf.len) (hlt : ev.buf.len < s.frameSize) :
    demuxStep fmt cvOk s ev = StepResult.skipped s := by
  obtain ⟨w, h, fs, ff⟩ := s
  simp only at hfirst
  subst hfirst
  have hne : ev.buf.len ≠ fs := Nat.ne_of_lt hlt
  simp [demuxStep, autodetectState, emitStep, hpoll, hne]

theorem c7_midstream_partial_read_dropped_witness :
    demuxStep (captureFormatFor "bgr24") true ⟨2, 2, 12, false⟩ ⟨false, ⟨5, 0⟩⟩ =
      StepResult.skipped ⟨2, 2, 12, false⟩ :=
  c7_midstream_partial_read_dropped (captureFormatFor "bgr24") true ⟨2, 2, 12, false⟩
    ⟨false, ⟨5, 0⟩⟩ rfl rfl (by decide) (by decide)

/-- C8: if the abort signal already reads true at the first frame
boundary, the produced sequence is empty (and nothing is raised — the
run is a total function); the signal is consulted exactly once unless the
underlying stream was empty, i.e. once per frame boundary reached. -/
theorem c8_abort_before_first_frame (stream : List Nat) (ab : Nat → Bool)
    (useLimit : Bool) (limit fi : Nat) (h : ab 0 = true) :
    (iteratorRun ab useLimit limit stream fi 0).yields = [] ∧
    (iteratorRun ab useLimit limit stream fi 0).checks = min 1 stream.length := by
  cases stream with
  | nil => exact ⟨rfl, rfl⟩
  | cons f rest =>
    constructor
    · simp [iteratorRun, h]
    · simp [iteratorRun, h]

theorem c8_abort_before_first_frame_witness :
    (iteratorRun (fun _ => true) true 5 [10, 20] 0 0).yields = [] ∧
    (iteratorRun (fun _ => true) true 5 [10, 20] 0 0).checks = min 1 [10, 20].length :=
  c8_abort_before_first_frame [10, 20] (fun _ => true) true 5 0 rfl

/-- C9 (amended): for a frame-rate string splitting as `n/d`, a nonzero
denominator parses to exactly the rational `n / d`; a zero denominator
makes the parse fail — but with an unstructured `ZeroDivisionError`, not
the descriptive metadata `RuntimeError`. -/
theorem c9_fps_rational_parse (fps ns ds : List Char) (n d : Int)
    (hsplit : pySplitChar '/' fps = [ns, ds])
    (hn : parseIntChars ns = some n) (hd : parseIntChars ds = some d) :
    (d ≠ 0 → parse_r_frame_rate fps = Except.ok ((n : ℚ) / (d : ℚ))) ∧
    (d = 0 → parse_r_frame_rate fps = Except.error PyExc.zeroDivisionError) := by
  constructor <;> intro hdz <;>
    simp [parse_r_frame_rate, hsplit, pyListGet, pyIntOf, hn, hd, hdz]

theorem c9_fps_rational_parse_witness :
    parse_r_frame_rate ['3', '0', '/', '1'] = Except.ok ((30 : ℚ) / (1 : ℚ)) :=
  (c9_fps_rational_parse ['3', '0', '/', '1'] ['3', '0'] ['1'] 30 1 (by decide)
      (by decide) (by decide)).1 (by decide)

/-- C9 counterexample: on the concrete frame-rate string `"30/0"` the
parse fails with `ZeroDivisionError`, not with the structured metadata
`RuntimeError` the claim calls `MetadataError`. -/
theorem c9_zero_denominator_counterexample :
    parse_r_frame_rate ['3', '0', '/', '0'] = Except.error PyExc.zeroDivisionError ∧
    isMetadataRuntimeError (parse_r_frame_rate ['3', '0', '/', '0']) = false := by
  constructor
  · simp [parse_r_frame_rate, pySplitChar, pyListGet, pyIntOf, parseIntChars, parseNatAux,
      digitVal]
  · simp [parse_r_frame_rate, pySplitChar, pyListGet, pyIntOf, parseIntChars, parseNatAux,
      digitVal, isMetadataRuntimeError]

/-- C10: for a session with requested format `"yuyv422"`, the pipeline's
output pixel format is `"bgr24"`, the per-frame read size is computed
with 2 bytes per pixel (`frame_size = width * height * 2`), and every
frame the loop yields is the YUYV→BGR conversion of the read buffer. -/
theorem c10_yuyv422_pipeline :
    (captureFormatFor "yuyv422").output_pix_fmt = "bgr24" ∧
    bytesPerPixel (captureFormatFor "yuyv422") = 2 ∧
    (∀ w h, (demuxInit (captureFormatFor "yuyv422") w h).frameSize = w * h * 2) ∧
    (∀ cvOk s ev f s2,
      demuxStep (captureFormatFor "yuyv422") cvOk s ev = StepResult.yielded f s2 →
      f = FrameOut.yuyvBgr ev.buf) := by
  refine ⟨by decide, by decide, fun w h => by simp [demuxInit, bytesPerPixel, captureFormatFor], ?_⟩
  intro cvOk s ev f s2 hstep
  rw [show captureFormatFor "yuyv422" = ⟨"yuyv422", "yuyv422", "bgr24"⟩ from rfl] at hstep
  simp only [demuxStep, autodetectState, emitStep] at hstep
  repeat' split at hstep
  all_goals first
    | exact StepResult.noConfusion hstep
    | (injection hstep with h1 h2; exact h1.symm)
    | exact absurd (show ("bgr24" : String) = "gray" ∨ ("bgr24" : String) = "gray8" from ‹_›)
        (by simp)
    | exact absurd (show ("yuyv422" : String) = "yuyv422" from rfl) ‹_›
    | exact absurd trivial ‹¬True›

theorem storeGet_singleton (k : String) (v : SessionState) : storeGet [(k, v)] k = some v := by
  simp [storeGet]

theorem storeSet_singleton (k : String) (v v2 : SessionState) :
    storeSet [(k, v)] k v2 = [(k, v2)] := by
  simp [storeSet]

theorem storeDel_singleton (k : String) (v : SessionState) : storeDel [(k, v)] k = [] := by
  simp [storeDel]

/-- `openSession` on an unknown path creates the state fresh. -/
theorem openSession_fresh (w : World) (path pf res : String)
    (hget : storeGet w.store path = none) :
    openSession w path pf res =
      { w with
          store := storeSet w.store path ⟨pf, res, 0, 1⟩,
          loaderConstructions := w.loaderConstructions + 1 } := by
  unfold openSession
  rw [hget]

/-- `openSession` with unchanged settings leaves the world untouched. -/
theorem openSession_unchanged (w : World) (path pf res : String) (st : SessionState)
    (hget : storeGet w.store path = some st)
    (hpf : st.pix_fmt = pf) (hres : st.resolution = res) :
    openSession w path pf res = w := by
  unfold openSession
  rw [hget]
  simp [hpf, hres]

/-- `openSession` with changed settings recreates the loader in place:
new settings, `frame_index` reset to 0, generation bumped. -/
theorem openSession_changed (w : World) (path pf res : String) (st : SessionState)
    (hget : storeGet w.store path = some st)
    (hch : st.pix_fmt ≠ pf ∨ st.resolution ≠ res) :
    openSession w path pf res =
      { w with
          store := storeSet w.store path ⟨pf, res, 0, st.loaderGen + 1⟩,
          loaderConstructions := w.loaderConstructions + 1 } := by
  unfold openSession
  rw [hget]
  simp [hch]

/-- `consumeSession` on a known path runs the iterator from the stored
`frame_index` and advances the spawn/teardown counters by one each. -/
theorem consumeSession_spec (w : World) (path : String) (st : SessionState)
    (stream : List Nat) (ab : Nat → Bool) (uL : Bool) (L : Nat)
    (hget : storeGet w.store path = some st) :
    consumeSession w path stream ab uL L =
      ({ w with
          store := storeSet w.store path
            { st with
                frame_index :=
                  st.frame_index + (iteratorRun ab uL L stream st.frame_index 0).yields.length },
          spawnCount := w.spawnCount + 1,
          teardownCount := w.teardownCount + 1 },
        iteratorRun ab uL L stream st.frame_index 0) := by
  unfold consumeSession
  rw [hget]

/-- With the abort signal never set and the limit enabled, the iterator
started at `frame_index = a < limit` yields the first `limit - a` frames
(or all of them), paired with consecutive indices from `idx`. -/
theorem iteratorRun_no_abort (L : Nat) (stream : List Nat) :
    ∀ (a idx : Nat), a < L →
      (iteratorRun (fun _ => false) true L stream a idx).yields.map Prod.fst =
        stream.take (L - a) ∧
      (iteratorRun (fun _ => false) true L stream a idx).yields.map Prod.snd =
        List.range' idx (min (L - a) stream.length) := by
  induction stream with
  | nil =>
    intro a idx ha
    simp [iteratorRun]
  | cons f rest ih =>
    intro a idx ha
    by_cases hL : L ≤ a + 1
    · have hLa : L - a = 1 := by omega
      have hmin : min (L - a) (f :: rest).length = 1 := by
        simp [hLa]
      simp [iteratorRun, hL, hLa, hmin, List.range']
    · have h2 : a + 1 < L := by omega
      have hrec := ih (a + 1) (idx + 1) h2
      have hLa : L - a = (L - (a + 1)) + 1 := by omega
      have hmin : min (L - a) (f :: rest).length = min (L - (a + 1)) rest.length + 1 := by
        simp only [List.length_cons]
        omega
      constructor
      · simp only [iteratorRun, hL, List.map_cons, hrec.1]
        rw [hLa, List.take_succ_cons]
        simp
        exact hrec.1
      · simp only [iteratorRun, hL, List.map_cons, hrec.2]
        rw [hmin, List.range'_succ]
        simp
        exact hrec.2

/-- C2: for a fresh session for `path`, the abort signal never set, and
the limit `L ≥ 1` enabled, the node yields exactly `min L
available_frames` pairs — the first `min L n` frames, with indices
`0 .. min L n - 1` in increasing order — and once the registered
after-chain cleanup hook has run, the session is removed from the keyed
store. -/
theorem c2_limit_yields_min_frames (path pix_fmt resolution : String) (stream : List Nat)
    (L : Nat) (hL : 1 ≤ L) :
    ((consumeSession (openSession emptyWorld path pix_fmt resolution) path stream
        (fun _ => false) true L).2.yields.length = min L stream.length) ∧
    ((consumeSession (openSession emptyWorld path pix_fmt resolution) path stream
        (fun _ => false) true L).2.yields.map Prod.fst =
      stream.take (min L stream.length)) ∧
    ((consumeSession (openSession emptyWorld path pix_fmt resolution) path stream
        (fun _ => false) true L).2.yields.map Prod.snd =
      List.range (min L stream.length)) ∧
    storeGet (cleanupState (consumeSession (openSession emptyWorld path pix_fmt resolution)
        path stream (fun _ => false) true L).1 path).store path = none := by
  have h0 : storeGet emptyWorld.store path = none := rfl
  have hop := openSession_fresh emptyWorld path pix_fmt resolution h0
  have hget1 : storeGet (openSession emptyWorld path pix_fmt resolution).store path =
      some ⟨pix_fmt, resolution, 0, 1⟩ := by
    rw [hop]
    exact storeGet_singleton path _
  have hcons := consumeSession_spec (openSession emptyWorld path pix_fmt resolution) path
    ⟨pix_fmt, resolution, 0, 1⟩ stream (fun _ => false) true L hget1
  have hiter := iteratorRun_no_abort L stream 0 0 hL
  rw [Nat.sub_zero] at hiter
  have hy : (consumeSession (openSession emptyWorld path pix_fmt resolution) path stream
      (fun _ => false) true L).2 = iteratorRun (fun _ => false) true L stream 0 0 := by
    rw [hcons]
  refine ⟨?_, ?_, ?_, ?_⟩
  · rw [hy]
    have hlen := congrArg List.length hiter.2
    simpa using hlen
  · rw [hy, hiter.1, List.take_eq_take]
    omega
  · rw [hy, hiter.2, List.range_eq_range']
  · rw [hcons, hop]
    simp [cleanupState, storeGet, storeSet, storeDel, emptyWorld]

theorem c2_limit_yields_min_frames_witness :
    ((consumeSession (openSession emptyWorld "d" "bgr24" "640x480") "d" [10, 20, 30]
        (fun _ => false) true 2).2.yields.length = min 2 [10, 20, 30].length) ∧
    ((consumeSession (openSession emptyWorld "d" "bgr24" "640x480") "d" [10, 20, 30]
        (fun _ => false) true 2).2.yields.map Prod.fst =
      [10, 20, 30].take (min 2 [10, 20, 30].length)) ∧
    ((consumeSession (openSession emptyWorld "d" "bgr24" "640x480") "d" [10, 20, 30]
        (fun _ => false) true 2).2.yields.map Prod.snd =
      List.range (min 2 [10, 20, 30].length)) ∧
    storeGet (cleanupState (consumeSession (openSession emptyWorld "d" "bgr24" "640x480")
        "d" [10, 20, 30] (fun _ => false) true 2).1 "d").store "d" = none :=
  c2_limit_yields_min_frames "d" "bgr24" "640x480" [10, 20, 30] 2 (by decide)

/-- C3 counterexample: invoking the node twice for the same device path
with an unchanged pixel format and resolution and consuming both frame
streams spawns two decode processes, not one — each `stream_frames`
session spawns its own ffmpeg process, so the second invocation does not
reuse a live process. -/
theorem c3_counterexample :
    (twoRunsSameConfig "/dev/video0" "bgr24" "640x480" [7] [7] true 1).spawnCount = 2 ∧
    (twoRunsSameConfig "/dev/video0" "bgr24" "640x480" [7] [7] true 1).spawnCount ≠ 1 := by
  constructor <;> decide

/-- C3 (amended): invoking the node twice for the same device path with
an unchanged pixel format and resolution reuses the same session state
and loader object — exactly one `VideoCapture` construction — while each
consumed invocation spawns and tears down its own decode process (two
spawns, two teardowns over the two runs); invoking it with a changed
pixel format or resolution recreates the loader exactly once (a second
construction, with the frame index reset to zero and the generation
bumped), and the changed invocation's stream again spawns its own
process. -/
theorem c3_session_reuse_and_reconfigure (path pf res pf2 res2 : String) (s1 s2 : List Nat)
    (uL : Bool) (L : Nat) :
    ((twoRunsSameConfig path pf res s1 s2 uL L).loaderConstructions = 1 ∧
      (twoRunsSameConfig path pf res s1 s2 uL L).spawnCount = 2 ∧
      (twoRunsSameConfig path pf res s1 s2 uL L).teardownCount = 2) ∧
    (pf ≠ pf2 ∨ res ≠ res2 →
      (openSession (runNodeOnce emptyWorld path pf res s1 uL L) path pf2
          res2).loaderConstructions = 2 ∧
      storeGet (openSession (runNodeOnce emptyWorld path pf res s1 uL L) path pf2
          res2).store path = some ⟨pf2, res2, 0, 2⟩ ∧
      (consumeSession (openSession (runNodeOnce emptyWorld path pf res s1 uL L) path pf2 res2)
          path s2 (fun _ => false) uL L).1.spawnCount = 2) := by
  have h0 : storeGet emptyWorld.store path = none := rfl
  have hop := openSession_fresh emptyWorld path pf res h0
  have hget1 : storeGet (openSession emptyWorld path pf res).store path =
      some ⟨pf, res, 0, 1⟩ := by
    rw [hop]
    exact storeGet_singleton path _
  have hcons := consumeSession_spec (openSession emptyWorld path pf res) path
    ⟨pf, res, 0, 1⟩ s1 (fun _ => false) uL L hget1
  have hw2 : runNodeOnce emptyWorld path pf res s1 uL L =
      { store := [(path,
          ⟨pf, res, (iteratorRun (fun _ => false) uL L s1 0 0).yields.length, 1⟩)],
        loaderConstructions := 1, spawnCount := 1, teardownCount := 1 } := by
    unfold runNodeOnce
    rw [hcons, hop]
    simp [storeSet, emptyWorld]
  have hget2 : storeGet (runNodeOnce emptyWorld path pf res s1 uL L).store path =
      some ⟨pf, res, (iteratorRun (fun _ => false) uL L s1 0 0).yields.length, 1⟩ := by
    rw [hw2]
    exact storeGet_singleton path _
  constructor
  · have hop2 : openSession (runNodeOnce emptyWorld path pf res s1 uL L) path pf res =
        runNodeOnce emptyWorld path pf res s1 uL L :=
      openSession_unchanged _ path pf res _ hget2 rfl rfl
    have hcons2 := consumeSession_spec (runNodeOnce emptyWorld path pf res s1 uL L) path
      ⟨pf, res, (iteratorRun (fun _ => false) uL L s1 0 0).yields.length, 1⟩ s2
      (fun _ => false) uL L hget2
    have htwo : twoRunsSameConfig path pf res s1 s2 uL L =
        (consumeSession (runNodeOnce emptyWorld path pf res s1 uL L) path s2
          (fun _ => false) uL L).1 := by
      show (consumeSession (openSession (runNodeOnce emptyWorld path pf res s1 uL L)
          path pf res) path s2 (fun _ => false) uL L).1 =
        (consumeSession (runNodeOnce emptyWorld path pf res s1 uL L) path s2
          (fun _ => false) uL L).1
      rw [hop2]
    rw [htwo, hcons2, hw2]
    exact ⟨rfl, rfl, rfl⟩
  · intro hch
    have hop2 := openSession_changed (runNodeOnce emptyWorld path pf res s1 uL L) path pf2
      res2 _ hget2 hch
    have hget3 : storeGet (openSession (runNodeOnce emptyWorld path pf res s1 uL L) path pf2
        res2).store path = some ⟨pf2, res2, 0, 2⟩ := by
      rw [hop2, hw2]
      rw [show storeSet [(path,
          (⟨pf, res, (iteratorRun (fun _ => false) uL L s1 0 0).yields.length, 1⟩ :
            SessionState))] path ⟨pf2, res2, 0, 2⟩ = [(path, ⟨pf2, res2, 0, 2⟩)] from
        storeSet_singleton path _ _]
      exact storeGet_singleton path _
    have hcons3 := consumeSession_spec (openSession (runNodeOnce emptyWorld path pf res s1 uL L)
      path pf2 res2) path ⟨pf2, res2, 0, 2⟩ s2 (fun _ => false) uL L hget3
    refine ⟨?_, hget3, ?_⟩
    · rw [hop2, hw2]
    · rw [hcons3]
      show (openSession (runNodeOnce emptyWorld path pf res s1 uL L) path pf2
          res2).spawnCount + 1 = 2
      rw [hop2, hw2]

theorem c3_session_reuse_and_reconfigure_witness :
    ((twoRunsSameConfig "d" "bgr24" "640x480" [7] [8] true 1).loaderConstructions = 1 ∧
      (twoRunsSameConfig "d" "bgr24" "640x480" [7] [8] true 1).spawnCount = 2 ∧
      (twoRunsSameConfig "d" "bgr24" "640x480" [7] [8] true 1).teardownCount = 2) ∧
    ((openSession (runNodeOnce emptyWorld "d" "bgr24" "640x480" [7] true 1) "d" "mjpeg"
        "640x480").loaderConstructions = 2 ∧
      storeGet (openSession (runNodeOnce emptyWorld "d" "bgr24" "640x480" [7] true 1) "d"
        "mjpeg" "640x480").store "d" = some ⟨"mjpeg", "640x480", 0, 2⟩ ∧
      (consumeSession (openSession (runNodeOnce emptyWorld "d" "bgr24" "640x480" [7] true 1)
          "d" "mjpeg" "640x480") "d" [8] (fun _ => false) true 1).1.spawnCount = 2) :=
  ⟨(c3_session_reuse_and_reconfigure "d" "bgr24" "640x480" "mjpeg" "640x480" [7] [8] true 1).1,
    (c3_session_reuse_and_reconfigure "d" "bgr24" "640x480" "mjpeg" "640x480" [7] [8]
      true 1).2 (Or.inl (by decide))⟩

/-- C1 (amended): teardown runs exactly once per spawned process on every
exit path — normal end of stream, consumer stop (frame limit or abort),
or loop error — and never for a process that was not spawned; and the
teardown error propagates to the caller exactly when the graceful wait
timed out and the forced kill itself raised (errors from terminate/wait
are caught and only recorded). -/
theorem c1_teardown_exactly_once (fmt : CaptureFormat) (cvOk : Bool) (w h : Nat)
    (sc : SessionScript) :
    (streamFramesRun fmt cvOk w h sc).teardownCount =
      (streamFramesRun fmt cvOk w h sc).spawnCount ∧
    ((streamFramesRun fmt cvOk w h sc).teardown = TeardownOutcome.errorPropagated ↔
      (streamFramesRun fmt cvOk w h sc).spawnCount = 1 ∧
        sc.proc = ProcBehavior.hangsKillRaises) := by
  unfold streamFramesRun
  by_cases h0 : sc.stopAfter = some 0
  · simp [h0]
  · by_cases h1 : sc.spawnOk = false
    · simp [h0, h1]
    · cases hp : sc.proc <;> simp [h0, h1, runTeardown, hp]

theorem c1_teardown_exactly_once_witness :
    (streamFramesRun (captureFormatFor "bgr24") true 2 2
        ⟨true, [], none, ProcBehavior.gracefulOk⟩).teardownCount =
      (streamFramesRun (captureFormatFor "bgr24") true 2 2
        ⟨true, [], none, ProcBehavior.gracefulOk⟩).spawnCount :=
  (c1_teardown_exactly_once (captureFormatFor "bgr24") true 2 2
    ⟨true, [], none, ProcBehavior.gracefulOk⟩).1

/-- C1 counterexample: at this concrete session, teardown runs (exactly
once) but the error raised during teardown — by the `process.kill()`
inside the `TimeoutExpired` handler, which no `except` covers —
propagates to the caller, contradicting the claim that a teardown error
is never propagated. -/
theorem c1_teardown_counterexample :
    (streamFramesRun (captureFormatFor "bgr24") true 2 2 killRaisesScript).teardownCount = 1 ∧
    (streamFramesRun (captureFormatFor "bgr24") true 2 2 killRaisesScript).teardown =
      TeardownOutcome.errorPropagated := by
  constructor <;> rfl

/-- C5: when the probe result carries an explicit `nb_frames` (and the
other required fields are present and the frame rate parses), the
resulting `frame_count` is exactly that explicit value, regardless of any
derivable duration; and when neither `nb_frames` nor any duration is
present, file probing fails with an error. -/
theorem c5_explicit_frame_count_wins :
    (∀ (p : FileProbe) (w h n : Int) (fs : List Char) (q : ℚ),
      p.hasFormat = true → p.hasVideoStream = true →
      p.width = some w → p.height = some h →
      p.r_frame_rate = some fs → parse_r_frame_rate fs = Except.ok q →
      p.nb_frames = some n →
      VideoMetadata.from_file p = Except.ok ⟨w, h, q, n⟩) ∧
    (∀ (p : FileProbe),
      p.nb_frames = none → p.stream_duration = none → p.format_duration = none →
      exceptIsError (VideoMetadata.from_file p) = true) := by
  constructor
  · intro p w h n fs q hfm hvs hw hh hfps hq hnb
    simp [VideoMetadata.from_file, hfm, hvs, hw, hh, hfps, hq, hnb]
  · intro p hnb hsd hfd
    obtain ⟨hf, hv, pw, ph, pr, pn, psd, pfd⟩ := p
    simp only at hnb hsd hfd
    subst hnb
    subst hsd
    subst hfd
    cases hf
    · simp [VideoMetadata.from_file, exceptIsError]
    · cases hv
      · simp [VideoMetadata.from_file, exceptIsError]
      · cases pw with
        | none => simp [VideoMetadata.from_file, exceptIsError]
        | some w =>
          cases ph with
          | none => simp [VideoMetadata.from_file, exceptIsError]
          | some h =>
            cases pr with
            | none => simp [VideoMetadata.from_file, exceptIsError]
            | some fs =>
              cases hq : parse_r_frame_rate fs <;>
                simp [VideoMetadata.from_file, exceptIsError, hq]

theorem c5_explicit_frame_count_wins_witness :
    VideoMetadata.from_file probeWithBoth = Except.ok ⟨640, 480, (30 : ℚ) / (1 : ℚ), 42⟩ :=
  c5_explicit_frame_count_wins.1 probeWithBoth 640 480 42 ['3', '0', '/', '1']
    ((30 : ℚ) / (1 : ℚ)) rfl rfl rfl rfl rfl
    (by simp [parse_r_frame_rate, pySplitChar, pyListGet, pyIntOf, parseIntChars, parseNatAux,
      digitVal]) rfl

/-- Shape analysis of `captureFormatFor`: the requested format is stored
verbatim, and the output format / bytes-per-pixel combination is one of
the three that `__init__` can produce. -/
theorem captureFormat_shape (p : String) :
    (captureFormatFor p).requested_fmt = p ∧
    (((captureFormatFor p).output_pix_fmt = "bgr24" ∧ p ≠ "yuyv422" ∧
        bytesPerPixel (captureFormatFor p) = 3) ∨
      ((captureFormatFor p).output_pix_fmt = "bgr24" ∧ p = "yuyv422" ∧
        bytesPerPixel (captureFormatFor p) = 2) ∨
      ((captureFormatFor p).output_pix_fmt = "gray" ∧ p ≠ "yuyv422" ∧
        bytesPerPixel (captureFormatFor p) = 1)) := by
  by_cases h1 : p = "mjpeg"
  · subst h1
    exact ⟨rfl, Or.inl ⟨rfl, by decide, rfl⟩⟩
  · by_cases h2 : p = "yuyv422"
    · subst h2
      exact ⟨rfl, Or.inr (Or.inl ⟨rfl, rfl, rfl⟩)⟩
    · by_cases h3 : p = "gray" ∨ p = "gray8"
      · refine ⟨?_, Or.inr (Or.inr ⟨?_, h2, ?_⟩)⟩ <;>
          simp [captureFormatFor, bytesPerPixel, bppMap, h1, h2, h3]
      · refine ⟨?_, Or.inl ⟨?_, h2, ?_⟩⟩ <;>
          simp [captureFormatFor, bytesPerPixel, bppMap, h1, h2, h3]

/-- For every format `__init__` can configure, a buffer whose length is
exactly the current frame size and exactly `height * width *
bytes_per_pixel` is normalised and emitted, carrying the read buffer,
with `first_frame` cleared. -/
theorem emitStep_full_frame (p : String) (cvOk : Bool) (s1 : DemuxState) (b : Buffer)
    (hsize : b.len = s1.frameSize)
    (hpix : b.len = s1.height * s1.width * bytesPerPixel (captureFormatFor p))
    (hcv : cvOk = true) :
    (emitStep (captureFormatFor p) cvOk s1 b).yieldsBuf =
      some (b, ⟨s1.width, s1.height, s1.frameSize, false⟩) := by
  obtain ⟨hreq, hshape⟩ := captureFormat_shape p
  rcases hshape with ⟨hout, hne, hbpp⟩ | ⟨hout, hyuyv, hbpp⟩ | ⟨hout, hne, hbpp⟩
  · rw [hbpp] at hpix
    have hreqne : (captureFormatFor p).requested_fmt ≠ "yuyv422" := by
      rw [hreq]
      exact hne
    have hfs : s1.frameSize = s1.height * s1.width * 3 := by
      rw [← hsize]
      exact hpix
    simp [emitStep, hsize, hout, hreqne, hfs, StepResult.yieldsBuf, FrameOut.buffer]
  · rw [hbpp] at hpix
    have hreqeq : (captureFormatFor p).requested_fmt = "yuyv422" := by
      rw [hreq]
      exact hyuyv
    have hfs : s1.frameSize = s1.height * s1.width * 2 := by
      rw [← hsize]
      exact hpix
    simp [emitStep, hsize, hout, hreqeq, hcv, hfs, StepResult.yieldsBuf, FrameOut.buffer]
  · rw [hbpp, Nat.mul_one] at hpix
    have hfs : s1.frameSize = s1.height * s1.width := by
      rw [← hsize]
      exact hpix
    simp [emitStep, hsize, hout, hfs, StepResult.yieldsBuf, FrameOut.buffer]

/-- C4: on the very first read, a short buffer of length `0 < n < F`
whose pixel count `n / bytes_per_pixel` matches an entry `(w, h)` of the
resolution table makes the demuxer adopt that width/height and the new
frame size (which under exact divisibility equals `w * h *
bytes_per_pixel`) for the rest of the session, and that first short
buffer itself is emitted as a valid frame; with no matching entry the
buffer is dropped and the state keeps the original frame size. -/
theorem c4_first_frame_resolution_adoption (p : String) (cvOk : Bool)
    (s : DemuxState) (ev : ReadEvent)
    (hfirst : s.firstFrame = true) (hpoll : ev.pollExited = false)
    (hpos : 0 < ev.buf.len) (hlt : ev.buf.len < s.frameSize) :
    (∀ w h,
      findResolution (ev.buf.len / bytesPerPixel (captureFormatFor p)) = some (w, h) →
      bytesPerPixel (captureFormatFor p) ∣ ev.buf.len → cvOk = true →
      ev.buf.len = w * h * bytesPerPixel (captureFormatFor p) ∧
      (demuxStep (captureFormatFor p) cvOk s ev).yieldsBuf =
        some (ev.buf, ⟨w, h, ev.buf.len, false⟩)) ∧
    (findResolution (ev.buf.len / bytesPerPixel (captureFormatFor p)) = none →
      demuxStep (captureFormatFor p) cvOk s ev =
        StepResult.skipped ⟨s.width, s.height, s.frameSize, false⟩) := by
  have hcond : s.firstFrame = true ∧ ev.buf.len ≠ 0 ∧ ev.buf.len ≠ s.frameSize :=
    ⟨hfirst, Nat.pos_iff_ne_zero.mp hpos, Nat.ne_of_lt hlt⟩
  constructor
  · intro w h hfind hdvd hcv
    have hwh : w * h = ev.buf.len / bytesPerPixel (captureFormatFor p) :=
      findResolution_spec _ w h hfind
    have hlen : ev.buf.len = w * h * bytesPerPixel (captureFormatFor p) := by
      rw [hwh]
      exact (Nat.div_mul_cancel hdvd).symm
    refine ⟨hlen, ?_⟩
    have hs1 : autodetectState (captureFormatFor p) s ev.buf.len = ⟨w, h, ev.buf.len, false⟩ := by
      unfold autodetectState
      rw [if_pos hcond, hfind]
    have hpix : ev.buf.len = h * w * bytesPerPixel (captureFormatFor p) := by
      rw [hlen, Nat.mul_comm w h]
    have hemit := emitStep_full_frame p cvOk ⟨w, h, ev.buf.len, false⟩ ev.buf rfl hpix hcv
    simp only [demuxStep, hpoll, Bool.false_eq_true, if_false]
    rw [hs1]
    exact hemit
  · intro hfind
    have hs1 : autodetectState (captureFormatFor p) s ev.buf.len =
        ⟨s.width, s.height, s.frameSize, false⟩ := by
      unfold autodetectState
      rw [if_pos hcond, hfind]
    have hne2 : ev.buf.len ≠ s.frameSize := Nat.ne_of_lt hlt
    simp only [demuxStep, hpoll, Bool.false_eq_true, if_false]
    rw [hs1]
    simp [emitStep, hne2]

theorem c4_first_frame_resolution_adoption_witness :
    findResolution (38400 / bytesPerPixel (captureFormatFor "yuyv422")) = some (160, 120) ∧
    (38400 : Nat) = 160 * 120 * bytesPerPixel (captureFormatFor "yuyv422") ∧
    (demuxStep (captureFormatFor "yuyv422") true ⟨640, 480, 614400, true⟩
        ⟨false, ⟨38400, 9⟩⟩).yieldsBuf =
      some (⟨38400, 9⟩, ⟨160, 120, 38400, false⟩) := by
  have h := (c4_first_frame_resolution_adoption "yuyv422" true ⟨640, 480, 614400, true⟩
      ⟨false, ⟨38400, 9⟩⟩ rfl rfl (by decide) (by decide)).1 160 120 (by decide) (by decide) rfl
  exact ⟨by decide, h.1, h.2⟩

theorem c10_yuyv422_pipeline_witness :
    demuxStep (captureFormatFor "yuyv422") true ⟨160, 120, 38400, false⟩ ⟨false, ⟨38400, 5⟩⟩ =
      StepResult.yielded (FrameOut.yuyvBgr ⟨38400, 5⟩) ⟨160, 120, 38400, false⟩ ∧
    FrameOut.yuyvBgr ⟨38400, 5⟩ = FrameOut.yuyvBgr (Buffer.mk 38400 5) :=
  ⟨by decide,
    c10_yuyv422_pipeline.2.2.2 true ⟨160, 120, 38400, false⟩ ⟨false, ⟨38400, 5⟩⟩
      (FrameOut.yuyvBgr ⟨38400, 5⟩) ⟨160, 120, 38400, false⟩ (by decide)⟩
